import Mathlib

/-!
Shallow embedding of the mkfifo_named_pipe crate (src/lib.rs): an
errno-to-message resolver (errno_to_err_msg), an idempotent FIFO
provisioner (my_mkfifo), and a sender/receiver pair exchanging one
message over the named pipe.

Bytes are modelled as Nat (values 0..255), paths as byte lists, the
filesystem as an association list from path to entry, and OS calls both by
their effect on the filesystem and by an explicit trace of the raw byte
buffers handed to them.  A Rust panic (from an assert or an Option
unwrap) is an explicit outcome constructor, distinct from an ordinary
return value.
-/

/-- UTF-8 bytes of an ASCII string: for ASCII text each char is one byte
whose value is the char code. Used only on ASCII literals of the source. -/
def asciiBytes (s : String) : List Nat :=
  s.data.map Char.toNat

/-- The crate constant PATH of line 35, the byte string
/home/w/temp/my_pipe (a Rust str slice, carrying no terminator byte). -/
def PATH : List Nat := asciiBytes "/home/w/temp/my_pipe"

/- ### Errno resolver (errno_to_err_msg, src/lib.rs lines 68-75) -/

/-- Outcome of the resolver: either the returned byte string, or the
panic raised by unwrap on None when the 128-byte buffer holds no
NUL byte. -/
inductive ResolveResult where
  | ok (msg : List Nat)
  | unwrapPanic
deriving DecidableEq

/-- Index of the first NUL byte of the buffer, none when there is no NUL
byte: the iterator position scan of line 71 of the source. -/
def position_nul : List Nat → Option Nat
  | [] => none
  | b :: rest => if b == 0 then some 0 else (position_nul rest).map (· + 1)

/-- Core of errno_to_err_msg, as a function of the 128-byte buffer
content left by strerror_r: scan for the first NUL, unwrap the position
(a panic when there is none), and return the raw bytes before it
(String::from_utf8_unchecked copies them with no validation). -/
def err_msg_from_buf (buf : List Nat) : ResolveResult :=
  match position_nul buf with
  | some i => ResolveResult.ok (buf.take i)
  | none => ResolveResult.unwrapPanic

/-- Modelled from the spec: the OS error-message table consumed through
strerror_r is not part of this repository; the spec fixes only the
English-locale entry for ENOENT (code 2), No such file or directory.
EEXIST (code 17) carries its conventional English text; every other code
is an arbitrary terminated placeholder. -/
def strerror_msg : Int → List Nat
  | 2 => asciiBytes "No such file or directory"
  | 17 => asciiBytes "File exists"
  | _ => asciiBytes "Unknown error"

/-- Content of the 128-byte buffer after the strerror_r call of line 70:
the source zero-initialises the buffer, and the call overwrites its front
with the message and its terminator, so the buffer reads as the message
followed by zeros. -/
def strerror_buf (errno : Int) : List Nat :=
  let m := strerror_msg errno
  m ++ List.replicate (128 - m.length) 0

/-- Source function errno_to_err_msg: fill the 128-byte buffer via
strerror_r, then extract the bytes before the first NUL. -/
def errno_to_err_msg (errno : Int) : ResolveResult :=
  err_msg_from_buf (strerror_buf errno)

/-- Validity of a byte sequence under UTF-8 (the invariant of the Rust
String type, the ranges checked by str::from_utf8): ASCII bytes stand
alone, leading bytes C2-F4 require the matching number of continuation
bytes in the ranges of RFC 3629 (excluding overlong forms, surrogates
and values above U+10FFFF). -/
def isUtf8Cont (b : Nat) : Bool := 0x80 ≤ b && b ≤ 0xBF

/-- Main UTF-8 validity scan, see isUtf8Cont. -/
def isValidUtf8 : List Nat → Bool
  | [] => true
  | b :: rest =>
    if b ≤ 0x7F then isValidUtf8 rest
    else if 0xC2 ≤ b && b ≤ 0xDF then
      match rest with
      | c1 :: r => isUtf8Cont c1 && isValidUtf8 r
      | [] => false
    else if b == 0xE0 then
      match rest with
      | c1 :: c2 :: r => (0xA0 ≤ c1 && c1 ≤ 0xBF) && isUtf8Cont c2 && isValidUtf8 r
      | _ => false
    else if (0xE1 ≤ b && b ≤ 0xEC) || b == 0xEE || b == 0xEF then
      match rest with
      | c1 :: c2 :: r => isUtf8Cont c1 && isUtf8Cont c2 && isValidUtf8 r
      | _ => false
    else if b == 0xED then
      match rest with
      | c1 :: c2 :: r => (0x80 ≤ c1 && c1 ≤ 0x9F) && isUtf8Cont c2 && isValidUtf8 r
      | _ => false
    else if b == 0xF0 then
      match rest with
      | c1 :: c2 :: c3 :: r =>
        (0x90 ≤ c1 && c1 ≤ 0xBF) && isUtf8Cont c2 && isUtf8Cont c3 && isValidUtf8 r
      | _ => false
    else if 0xF1 ≤ b && b ≤ 0xF3 then
      match rest with
      | c1 :: c2 :: c3 :: r =>
        isUtf8Cont c1 && isUtf8Cont c2 && isUtf8Cont c3 && isValidUtf8 r
      | _ => false
    else if b == 0xF4 then
      match rest with
      | c1 :: c2 :: c3 :: r =>
        (0x80 ≤ c1 && c1 ≤ 0x8F) && isUtf8Cont c2 && isUtf8Cont c3 && isValidUtf8 r
      | _ => false
    else false

/- ### Filesystem model and the FIFO provisioner (my_mkfifo) -/

/-- File types distinguishable through st_mode. -/
inductive FileType where
  | fifo
  | regular
  | directory
  | socket
  | chardev
  | blockdev
  | symlink
deriving DecidableEq

/-- File-type bits of st_mode for each type (the octal constants of
sys/stat.h). -/
def st_mode_type : FileType → Nat
  | FileType.fifo => 0o010000
  | FileType.chardev => 0o020000
  | FileType.directory => 0o040000
  | FileType.blockdev => 0o060000
  | FileType.regular => 0o100000
  | FileType.symlink => 0o120000
  | FileType.socket => 0o140000

/-- Constant libc S_IFIFO. -/
def S_IFIFO : Nat := 0o010000

/-- Constant libc S_IREAD (owner read permission bit). -/
def S_IREAD : Nat := 0o400

/-- Constant libc S_IWRITE (owner write permission bit). -/
def S_IWRITE : Nat := 0o200

/-- A filesystem entry: its type and its permission bits. -/
structure Entry where
  ftype : FileType
  perm : Nat
deriving DecidableEq

/-- The filesystem: an association list from path (byte list, no
terminator) to entry. -/
def FS : Type := List (List Nat × Entry)

instance : DecidableEq FS := by
  unfold FS
  exact inferInstance

/-- Entry at a path, if any. -/
def fsLookup (fs : FS) (p : List Nat) : Option Entry :=
  match fs with
  | [] => none
  | (q, e) :: rest => if q = p then some e else fsLookup rest p

/-- Model of the Path exists check of line 87: the standard library
converts the path to a terminated C string itself (failing, hence
reporting false, on paths with an interior NUL) and queries the entry. -/
def rustPathExists (fs : FS) (p : List Nat) : Bool :=
  if p.contains 0 then false else (fsLookup fs p).isSome

/-- What the OS reads when handed a pointer to buf: bytes up to the
first NUL, continuing past the end of buf into whatever bytes mem
follow it in memory when buf itself holds no NUL. -/
def cstrRead (buf mem : List Nat) : List Nat :=
  (buf ++ mem).takeWhile (fun b => b != 0)

/-- One OS call performed by my_mkfifo, recording the raw byte buffer
handed to it. -/
inductive Syscall where
  | statCall (buf : List Nat)
  | mkfifoCall (buf : List Nat) (mode : Nat)
  | errnoRead (value : Int)
deriving DecidableEq

/-- Outcome of my_mkfifo: normal return, the assert panic on a non-FIFO
st_mode, or the explicit panic after a failed mkfifo call (carrying the
errno it read and the message it resolved). -/
inductive MkfifoResult where
  | ok
  | assertUnexpectedTypePanic
  | mkfifoFailedPanic (errno : Int) (resolved : ResolveResult)
deriving DecidableEq

/-- Provisioner my_mkfifo (src/lib.rs lines 85-108), with the crate
constant PATH generalised to path, and mem the unspecified bytes that
follow the path buffer in memory.

Control flow of the source:
line 86 builds path_with_nul, the path with an explicit NUL terminator
appended (a fresh buffer; this is what stat receives on line 90).
If the exists check of line 87 holds, line 90 calls stat on
path_with_nul and line 93 asserts that st_mode has the S_IFIFO bit:
return on a FIFO, panic otherwise (when stat itself failed, st_mode
keeps its zeroed value and the assert also fails).
Otherwise line 99 calls mkfifo with owner read and write permission
bits, handing over the raw unterminated PATH pointer, so the OS reads
on into mem; on failure (minus one: here, effective path already
occupied, errno EEXIST = 17) line 101 reads the thread-local errno,
line 102 resolves it, and line 103 panics. -/
def my_mkfifo (path mem : List Nat) (fs : FS) :
    MkfifoResult × FS × List Syscall :=
  let path_with_nul := path ++ [0]
  if rustPathExists fs path then
    let eff := cstrRead path_with_nul []
    let tr := [Syscall.statCall path_with_nul]
    match fsLookup fs eff with
    | some entry =>
      if st_mode_type entry.ftype &&& S_IFIFO != 0 then
        (MkfifoResult.ok, fs, tr)
      else
        (MkfifoResult.assertUnexpectedTypePanic, fs, tr)
    | none => (MkfifoResult.assertUnexpectedTypePanic, fs, tr)
  else
    let eff := cstrRead path mem
    let mode := S_IREAD ||| S_IWRITE
    match fsLookup fs eff with
    | some _ =>
      (MkfifoResult.mkfifoFailedPanic 17 (errno_to_err_msg 17), fs,
        [Syscall.mkfifoCall path mode, Syscall.errnoRead 17])
    | none =>
      (MkfifoResult.ok, (eff, ⟨FileType.fifo, mode⟩) :: fs,
        [Syscall.mkfifoCall path mode])

/-- File-type query on a path (a stat through a properly terminated
string, as the tests and the spec type query do). -/
def file_type_query (fs : FS) (p : List Nat) : Option FileType :=
  (fsLookup fs p).map Entry.ftype

/- ### Sender / receiver (sender_process, receiver_process) -/

/-- Message literal of sender_process (line 126): the five bytes of
hello, the newline, and a trailing NUL — seven bytes in all. -/
def sender_msg : List Nat := asciiBytes "hello\n" ++ [0]

/-- Bytes entering the FIFO: write_all on line 127 writes the whole
message buffer. -/
def sender_writes : List Nat := sender_msg

/-- Loop of read_to_string on the FIFO byte stream: accumulate bytes
until a read returns no data (end of stream, once the writer has
closed); returns the accumulated bytes and the remaining stream (empty:
the reader has observed end-of-stream). -/
def read_to_string_from : List Nat → List Nat → List Nat × List Nat
  | [], acc => (acc, [])
  | b :: rest, acc => read_to_string_from rest (acc ++ [b])

/-- Test receiver_process reads the whole stream into its buffer. -/
def receiver_reads (stream : List Nat) : List Nat :=
  (read_to_string_from stream []).1

/- ### Theorems -/

set_option maxRecDepth 4096

/-- Specification of position_nul: when it finds an index, that index is
in range, the bytes before it are exactly the longest NUL-free leading
segment, and none of them is a NUL. -/
theorem position_nul_spec (l : List Nat) :
    ∀ i, position_nul l = some i →
      i < l.length ∧ l.take i = l.takeWhile (fun b => b != 0) ∧
      (l.take i).contains 0 = false := by
  induction l with
  | nil => intro i h; simp [position_nul] at h
  | cons b rest ih =>
    intro i h
    rw [position_nul] at h
    by_cases hb : b = 0
    · rw [if_pos (by simp [hb])] at h
      injection h with h
      subst h
      subst hb
      refine ⟨by simp, by simp [List.takeWhile_cons], by simp⟩
    · rw [if_neg (by simp [hb])] at h
      cases hr : position_nul rest with
      | none => rw [hr] at h; simp at h
      | some j =>
        rw [hr] at h
        simp at h
        obtain ⟨hlt, htake, hcont⟩ := ih j hr
        subst h
        refine ⟨by simpa using Nat.succ_lt_succ hlt, ?_, ?_⟩
        · simp [List.take_succ_cons, List.takeWhile_cons, hb, htake]
        · simp [List.contains_cons, hb]
          refine ⟨fun h => hb h.symm, ?_⟩
          simpa using hcont

/-- C1: with a regular file pre-existing at PATH, my_mkfifo ends in the
assert panic of line 93 — it aborts instead of returning an
UnexpectedFileType error — while the filesystem is left unmodified and
the only OS call made is the stat query. -/
theorem my_mkfifo_asserts_on_regular_file :
    my_mkfifo PATH [] [(PATH, ⟨FileType.regular, 0o644⟩)] =
      (MkfifoResult.assertUnexpectedTypePanic,
        [(PATH, ⟨FileType.regular, 0o644⟩)],
        [Syscall.statCall (PATH ++ [0])]) := by
  decide

/-- C2 counterexample: the sender does not write the six bytes of
hello-newline; it writes seven bytes whose last byte is a NUL
terminator. -/
theorem sender_msg_has_trailing_nul :
    sender_writes ≠ asciiBytes "hello\n" ∧ sender_writes.length = 7 ∧
    sender_writes.getLast? = some 0 := by
  decide

/-- C2 amended: the sender writes exactly the seven bytes of
hello-newline-NUL, and the reader, reading to end of stream, receives
exactly those seven bytes with nothing left in the stream. -/
theorem pipe_exchange_hello_with_nul :
    sender_writes = asciiBytes "hello\n" ++ [0] ∧
    read_to_string_from sender_writes [] = (asciiBytes "hello\n" ++ [0], []) := by
  decide

/-- C3: the logical path holds no NUL byte, and the buffer handed to stat
is the path with a terminator appended, but the buffer handed to mkfifo
is the raw path with no terminator appended — the creation call violates
the termination invariant. -/
theorem mkfifo_arg_missing_terminator :
    PATH.contains 0 = false ∧
    (my_mkfifo PATH [] [(PATH, ⟨FileType.fifo, 0o600⟩)]).2.2 =
      [Syscall.statCall (PATH ++ [0])] ∧
    (my_mkfifo PATH [] []).2.2 =
      [Syscall.mkfifoCall PATH (S_IREAD ||| S_IWRITE)] := by
  decide

/-- C4: the resolver truncates at the first NUL of the buffer (first
conjunct), but on a 128-byte buffer holding no NUL it ends in the unwrap
panic of line 71 instead of returning a MessageResolutionError (second
conjunct). -/
theorem resolver_truncates_and_unwrap_panics :
    err_msg_from_buf (asciiBytes "File exists" ++ List.replicate 117 0) =
      ResolveResult.ok (asciiBytes "File exists") ∧
    err_msg_from_buf (List.replicate 128 65) = ResolveResult.unwrapPanic := by
  decide

/-- C5: when mkfifo fails (here the effective created path is already
occupied, errno EEXIST = 17), the trace shows the errno read directly
after the mkfifo call with no other OS call between them, the errno the
routine reports is that same code — but the routine ends in the explicit
panic of line 103 instead of returning a ProvisionError. -/
theorem mkfifo_failure_reads_errno_then_panics :
    my_mkfifo PATH [65] [(PATH ++ [65], ⟨FileType.fifo, 0o600⟩)] =
      (MkfifoResult.mkfifoFailedPanic 17
          (ResolveResult.ok (asciiBytes "File exists")),
        [(PATH ++ [65], ⟨FileType.fifo, 0o600⟩)],
        [Syscall.mkfifoCall PATH (S_IREAD ||| S_IWRITE),
          Syscall.errnoRead 17]) := by
  decide

/-- C6: with a nonzero byte (65) following the path buffer in memory,
the first call succeeds but creates the FIFO at the extended path, so
the second call misses it, repeats the mkfifo OS call, and panics on
EEXIST — two successive calls are not both successful and the creation
call is duplicated. -/
theorem my_mkfifo_second_call_panics :
    (my_mkfifo PATH [65] []).1 = MkfifoResult.ok ∧
    my_mkfifo PATH [65] (my_mkfifo PATH [65] []).2.1 =
      (MkfifoResult.mkfifoFailedPanic 17
          (ResolveResult.ok (asciiBytes "File exists")),
        [(PATH ++ [65], ⟨FileType.fifo, 0o600⟩)],
        [Syscall.mkfifoCall PATH (S_IREAD ||| S_IWRITE),
          Syscall.errnoRead 17]) := by
  decide

/-- Complement of the C6 analysis, not itself a claim: when the byte
directly following the path buffer happens to be a NUL, the provisioner
is idempotent as intended — the second call succeeds and performs no
mkfifo call, only the stat query. -/
theorem my_mkfifo_idempotent_with_terminated_path :
    (my_mkfifo PATH [0] []).1 = MkfifoResult.ok ∧
    my_mkfifo PATH [0] (my_mkfifo PATH [0] []).2.1 =
      (MkfifoResult.ok, [(PATH, ⟨FileType.fifo, 0o600⟩)],
        [Syscall.statCall (PATH ++ [0])]) := by
  decide

/-- C7: on an empty filesystem the provisioner requests creation with
exactly the owner read and owner write bits (mode 0o600) and succeeds —
but because the mkfifo buffer lacks its terminator, with a nonzero byte
(65) following it in memory the FIFO is created at the extended path,
and a file-type query at the requested path reports no entry at all
rather than a FIFO. -/
theorem my_mkfifo_creates_owner_rw_but_query_misses :
    S_IREAD ||| S_IWRITE = 0o600 ∧
    my_mkfifo PATH [65] [] =
      (MkfifoResult.ok,
        [(PATH ++ [65], ⟨FileType.fifo, S_IREAD ||| S_IWRITE⟩)],
        [Syscall.mkfifoCall PATH (S_IREAD ||| S_IWRITE)]) ∧
    file_type_query [(PATH ++ [65], ⟨FileType.fifo, S_IREAD ||| S_IWRITE⟩)]
      PATH = none := by
  decide

/-- C8: resolving ENOENT (code 2) yields a message that contains the
substring No-such-file-or-directory (here: is exactly it). -/
theorem resolver_enoent_contains_no_such_file :
    ∃ pre post, errno_to_err_msg 2 =
      ResolveResult.ok (pre ++ asciiBytes "No such file or directory" ++ post) :=
  ⟨[], [], by decide⟩

/-- C9: whenever the resolver returns a byte string from its 128-byte
buffer, that string is strictly shorter than 128 bytes, holds no NUL
byte, and is exactly the buffer bytes preceding the first NUL. -/
theorem errno_resolver_result_invariants (buf m : List Nat)
    (hlen : buf.length = 128) (h : err_msg_from_buf buf = ResolveResult.ok m) :
    m.length < 128 ∧ m.contains 0 = false ∧
    m = buf.takeWhile (fun b => b != 0) := by
  rw [err_msg_from_buf] at h
  cases hp : position_nul buf with
  | none => rw [hp] at h; simp at h
  | some i =>
    rw [hp] at h
    injection h with h
    subst h
    obtain ⟨hlt, htake, hcont⟩ := position_nul_spec buf i hp
    refine ⟨?_, hcont, htake⟩
    rw [List.length_take, hlen]
    omega

/-- Witness for C9 at the concrete ENOENT buffer. -/
theorem errno_resolver_result_invariants_witness :
    (asciiBytes "No such file or directory").length < 128 ∧
    (asciiBytes "No such file or directory").contains 0 = false ∧
    asciiBytes "No such file or directory" =
      (strerror_buf 2).takeWhile (fun b => b != 0) :=
  errno_resolver_result_invariants (strerror_buf 2)
    (asciiBytes "No such file or directory") (by decide) (by decide)

/-- C10: the resolver applies no UTF-8 validation — every returned value
is the raw buffer bytes before the first NUL (first conjunct), and on a
buffer starting with the byte 255 it returns that byte even though the
singleton 255 is not valid UTF-8, so the Rust String it is wrapped in
violates the UTF-8 invariant of the String type (second and third
conjuncts). -/
theorem resolver_no_utf8_validation :
    (∀ buf m, err_msg_from_buf buf = ResolveResult.ok m →
      m = buf.takeWhile (fun b => b != 0)) ∧
    err_msg_from_buf (255 :: List.replicate 127 0) = ResolveResult.ok [255] ∧
    isValidUtf8 [255] = false := by
  refine ⟨?_, by decide, by decide⟩
  intro buf m h
  rw [err_msg_from_buf] at h
  cases hp : position_nul buf with
  | none => rw [hp] at h; simp at h
  | some i =>
    rw [hp] at h
    injection h with h
    subst h
    exact (position_nul_spec buf i hp).2.1
